import Mathlib

/-!
A shallow embedding of the GoGrid load balancer driver
(src/libcloud/loadbalancer/drivers/gogrid.py) and theorems checking the
specification of the module against it.

The driver is glue code over an HTTP transport: every method builds request
parameters, hands them to a connection collaborator, and parses the JSON
response into neutral domain objects.  The embedding therefore represents
each method as a pure function from the data the collaborators would return
(parsed response bodies, raised exception texts) to the observable behaviour
of the method: the request parameters it sends and the value it returns or
the exception it raises.  Exceptions are modelled with `Except`; a vendor
dictionary with possibly missing keys is modelled as a structure of
`Option` fields, and subscripting a missing key produces a key error.
-/

namespace GoGridLB

/-- Neutral algorithm enum from the load balancer base module (external to the
driver file); the spec lists exactly these two values. -/
inductive Algorithm where
  | ROUND_ROBIN
  | LEAST_CONNECTIONS
deriving DecidableEq, Repr

/-- Neutral state enum; the spec lists RUNNING and UNKNOWN. -/
inductive State where
  | RUNNING
  | UNKNOWN
deriving DecidableEq, Repr

/-- The exceptions the driver can raise or propagate.  A `vendor` error is an
exception raised by the transport collaborator, identified by its message
text, which is all the driver ever inspects.  `timeoutExc` is the bare
`Exception` raised when the create polling loop gives up. -/
inductive PyErr where
  | keyError (key : String)
  | indexError
  | vendor (text : String)
  | immutable (message : String)
  | libcloud (value : String)
  | timeoutExc (message : String)
deriving DecidableEq, Repr

/-- A member of a balancer: one backend target. -/
structure Member where
  id : Option String
  ip : String
  port : Nat
deriving DecidableEq, Repr

/-- A parsed balancer; the identifier is nullable until the vendor assigns
one. -/
structure Balancer where
  id : Option String
  name : String
  state : State
  ip : String
  port : Nat
deriving DecidableEq, Repr

/-- Vendor JSON dictionary for an ip object, with possibly missing keys. -/
structure IpDict where
  id : Option String
  ip : Option String
deriving DecidableEq, Repr

/-- Vendor JSON dictionary for a state object. -/
structure StateDict where
  name : Option String
deriving DecidableEq, Repr

/-- Vendor JSON dictionary for a virtualip object. -/
structure VipDict where
  ip : Option IpDict
  port : Option Nat
deriving DecidableEq, Repr

/-- Vendor JSON element of a realiplist array. -/
structure MemberElem where
  ip : Option IpDict
  port : Option Nat
deriving DecidableEq, Repr

/-- Vendor JSON element of the top level list array. -/
structure LBElem where
  id : Option String
  name : Option String
  state : Option StateDict
  virtualip : Option VipDict
  realiplist : Option (List MemberElem)
deriving DecidableEq, Repr

/-- A transport response: HTTP status and the parsed body, reduced to the
`list` array of the JSON object the driver reads. -/
structure Response where
  status : Nat
  object : List LBElem
deriving DecidableEq, Repr

/-- A value placed in the request parameter dictionary.  Python stores
heterogeneous values there: strings, integers, a nullable identifier, and in
one (buggy) code path a raw neutral `Algorithm` enum member. -/
inductive PVal where
  | str (s : String)
  | nat (n : Nat)
  | alg (a : Algorithm)
  | opt (o : Option String)
deriving DecidableEq, Repr

/-- Python dictionary subscripting: a missing key raises `KeyError`. -/
def dictGet {α : Type} (o : Option α) (key : String) : Except PyErr α :=
  match o with
  | some v => Except.ok v
  | none => Except.error (PyErr.keyError key)

/-- Python list subscripting at index 0: an empty list raises `IndexError`. -/
def listGetZero {α : Type} : List α → Except PyErr α
  | [] => Except.error PyErr.indexError
  | x :: _ => Except.ok x

/-- Whether `needle` occurs as a contiguous run inside `hay`, over lists. -/
def containsSub (needle : List Char) : List Char → Bool
  | [] => needle.isEmpty
  | c :: t => needle.isPrefixOf (c :: t) || containsSub needle t

/-- The Python substring test `needle in hay`. -/
def strContains (needle hay : String) : Bool :=
  containsSub needle.data hay.data

/-- A Python list comprehension mapping a fallible function: the first
element on which the function raises aborts the whole comprehension with
that exception. -/
def exceptMap {α β : Type} (f : α → Except PyErr β) : List α → Except PyErr (List β)
  | [] => Except.ok []
  | x :: xs =>
      match f x with
      | Except.error e => Except.error e
      | Except.ok y =>
          match exceptMap f xs with
          | Except.error e => Except.error e
          | Except.ok ys => Except.ok (y :: ys)

/-- LB_STATE_MAP from the driver class body. -/
def LB_STATE_MAP : List (String × State) :=
  [("On", State.RUNNING), ("Unknown", State.UNKNOWN)]

/-- The forward algorithm table from the driver class body. -/
def _VALUE_TO_ALGORITHM_MAP : List (String × Algorithm) :=
  [("round balancer", Algorithm.ROUND_ROBIN),
   ("least connection", Algorithm.LEAST_CONNECTIONS)]

/-- Modelled from the spec: `reverse_dict` is imported from the utils module,
which is not in the source tree.  The spec describes the reverse table as
derived from the single forward mapping, so each key and value pair is
swapped. -/
def reverse_dict {α β : Type} (d : List (α × β)) : List (β × α) :=
  d.map (fun p => (p.2, p.1))

/-- The derived reverse algorithm table from the driver class body. -/
def _ALGORITHM_TO_VALUE_MAP : List (Algorithm × String) :=
  reverse_dict _VALUE_TO_ALGORITHM_MAP

/-- The `_to_balancer` parser.  The keyword arguments of the `LoadBalancer`
constructor call are evaluated left to right: the identifier is read with
`el.get` and so never raises, while name, state and virtualip are read with
subscripting and raise a key error when missing.  The state string is looked
up in `LB_STATE_MAP` with UNKNOWN as the default. -/
def _to_balancer (el : LBElem) : Except PyErr Balancer :=
  match dictGet el.name "name" with
  | Except.error e => Except.error e
  | Except.ok nm =>
    match dictGet el.state "state" with
    | Except.error e => Except.error e
    | Except.ok st =>
      match dictGet st.name "name" with
      | Except.error e => Except.error e
      | Except.ok stName =>
        match dictGet el.virtualip "virtualip" with
        | Except.error e => Except.error e
        | Except.ok vip =>
          match dictGet vip.ip "ip" with
          | Except.error e => Except.error e
          | Except.ok ipd =>
            match dictGet ipd.ip "ip" with
            | Except.error e => Except.error e
            | Except.ok ipstr =>
              match dictGet vip.port "port" with
              | Except.error e => Except.error e
              | Except.ok port =>
                Except.ok ⟨el.id, nm,
                  (List.lookup stName LB_STATE_MAP).getD State.UNKNOWN,
                  ipstr, port⟩

/-- The `_to_balancers` parser: a list comprehension over the list array. -/
def _to_balancers (obj : List LBElem) : Except PyErr (List Balancer) :=
  exceptMap _to_balancer obj

/-- The `_to_member` parser. -/
def _to_member (el : MemberElem) : Except PyErr Member :=
  match dictGet el.ip "ip" with
  | Except.error e => Except.error e
  | Except.ok ipd =>
    match dictGet ipd.id "id" with
    | Except.error e => Except.error e
    | Except.ok mid =>
      match dictGet ipd.ip "ip" with
      | Except.error e => Except.error e
      | Except.ok mip =>
        match dictGet el.port "port" with
        | Except.error e => Except.error e
        | Except.ok port => Except.ok ⟨some mid, mip, port⟩

/-- The `_to_members` parser: a list comprehension over a realiplist. -/
def _to_members (obj : List MemberElem) : Except PyErr (List Member) :=
  exceptMap _to_member obj

/-- The counter loop of `_members_to_params`, starting at index `i`.  The
source walks the members with an integer counter starting at 0 and emits two
parameters per member. -/
def membersToParamsFrom : List Member → Nat → List (String × PVal)
  | [], _ => []
  | m :: ms, i =>
      ("realiplist." ++ toString i ++ ".ip", PVal.str m.ip) ::
      ("realiplist." ++ toString i ++ ".port", PVal.nat m.port) ::
      membersToParamsFrom ms (i + 1)

/-- The `_members_to_params` helper: indexed parameters for a member list. -/
def _members_to_params (members : List Member) : List (String × PVal) :=
  membersToParamsFrom members 0

/-- Modelled from the spec: DEFAULT_ALGORITHM is imported from the neutral
load balancer base module, which is not in the source tree; the spec calls it
the "explicit default algorithm constant when none requested", a member of
the neutral Algorithm enum. -/
def DEFAULT_ALGORITHM : Algorithm := Algorithm.ROUND_ROBIN

/-- Modelled from the spec: `_algorithm_to_value` is inherited from the
neutral base driver, which is not in the source tree; the spec describes
algorithm translation as table lookup, here in the derived reverse table,
with a key error on an unknown algorithm. -/
def _algorithm_to_value (algorithm : Algorithm) : Except PyErr String :=
  match List.lookup algorithm _ALGORITHM_TO_VALUE_MAP with
  | some v => Except.ok v
  | none => Except.error (PyErr.keyError "algorithm")

/-- The request parameters built by `ex_create_balancer_nowait`.  The
algorithm argument is optional; when it is absent the source assigns
DEFAULT_ALGORITHM to the local variable without translating it, otherwise it
translates through the reverse table.  `firstIp` stands for the virtual IP
returned by the externally owned first available IP allocator. -/
def ex_create_balancer_nowait_params (firstIp : String) (nm : String) (port : Nat)
    (algorithm : Option Algorithm) (members : List Member) :
    Except PyErr (List (String × PVal)) :=
  match (match algorithm with
         | none => Except.ok (PVal.alg DEFAULT_ALGORITHM)
         | some a =>
             match _algorithm_to_value a with
             | Except.error e => Except.error e
             | Except.ok v => Except.ok (PVal.str v)) with
  | Except.error e => Except.error e
  | Except.ok algVal =>
      Except.ok ([("name", PVal.str nm),
                  ("loadbalancer.type", algVal),
                  ("virtualip.ip", PVal.str firstIp),
                  ("virtualip.port", PVal.nat port)]
                 ++ _members_to_params members)

/-- The response handling of `ex_create_balancer_nowait`: the first balancer
parsed from the create response. -/
def ex_create_balancer_nowait_result (resp : Response) : Except PyErr Balancer :=
  match _to_balancers resp.object with
  | Except.error e => Except.error e
  | Except.ok bs => listGetZero bs

/-- The timeout constant of the polling loop, written as in the source. -/
def CREATE_TIMEOUT : Nat := 60 * 20

/-- The interval constant of the polling loop, written as in the source. -/
def CREATE_INTERVAL : Nat := 2 * 15

/-- The inner for loop of `create_balancer`: the first listed balancer whose
name matches and whose identifier is non-null. -/
def findNamedWithId (nm : String) (balancers : List Balancer) : Option Balancer :=
  balancers.find? (fun i => i.name == nm && i.id.isSome)

/-- The collaborator data `create_balancer` consumes: the balancer parsed
from the create response, and the balancer list returned by the k-th
`list_balancers` call of the polling loop. -/
structure PollEnv where
  createResp : Balancer
  listResults : Nat → List Balancer

/-- The while loop of `create_balancer`.  Besides the loop result it returns
the number of `list_balancers` calls made and the number of sleeps
performed.  Each iteration lists the balancers, scans for a matching entry,
and otherwise advances `waittime` by the interval and sleeps once; when
`waittime` reaches the timeout the loop falls through to the bare raise. -/
def create_poll (listResults : Nat → List Balancer) (nm : String)
    (waittime calls sleeps : Nat) : Except PyErr Balancer × Nat × Nat :=
  if h : waittime < CREATE_TIMEOUT then
    match findNamedWithId nm (listResults calls) with
    | some b => (Except.ok b, calls + 1, sleeps)
    | none =>
        create_poll listResults nm (waittime + CREATE_INTERVAL) (calls + 1) (sleeps + 1)
  else
    (Except.error (PyErr.timeoutExc "Failed to get id"), calls, sleeps)
termination_by CREATE_TIMEOUT - waittime
decreasing_by
  simp only [CREATE_TIMEOUT, CREATE_INTERVAL] at *
  omega

/-- The `create_balancer` method: returns the created balancer at once when
the create response carries an identifier, otherwise runs the polling loop.
The second and third components count `list_balancers` calls and sleeps. -/
def create_balancer (env : PollEnv) : Except PyErr Balancer × Nat × Nat :=
  if env.createResp.id.isSome then (Except.ok env.createResp, 0, 0)
  else create_poll env.listResults env.createResp.name 0 0 0

/-- The `destroy_balancer` method, as a function of the outcome of the delete
request: a raised exception is translated to the immutable object error when
its text contains the marker substring and is re-raised unchanged otherwise;
a response yields whether the status is 200. -/
def destroy_balancer (deleteResult : Except String Response) : Except PyErr Bool :=
  match deleteResult with
  | Except.error err =>
      if strContains "Update request for LoadBalancer" err then
        Except.error (PyErr.immutable "Cannot delete immutable object")
      else
        Except.error (PyErr.vendor err)
  | Except.ok resp => Except.ok (resp.status == 200)

/-- The parameter selection of `get_balancer`: the source reads the
`ex_balancer_name` keyword argument and falls back, on its KeyError, to the
`balancer_id` keyword argument, whose own KeyError propagates. -/
def get_balancer_params (exBalancerName balancerId : Option String) :
    Except PyErr (List (String × PVal)) :=
  match exBalancerName with
  | some n => Except.ok [("name", PVal.str n)]
  | none =>
      match balancerId with
      | some i => Except.ok [("id", PVal.str i)]
      | none => Except.error (PyErr.keyError "balancer_id")

/-- The `get_balancer` method: parameter selection followed by parsing the
response and taking element 0. -/
def get_balancer (exBalancerName balancerId : Option String) (resp : Response) :
    Except PyErr Balancer :=
  match get_balancer_params exBalancerName balancerId with
  | Except.error e => Except.error e
  | Except.ok _ =>
      match _to_balancers resp.object with
      | Except.error e => Except.error e
      | Except.ok bs => listGetZero bs

/-- The `_update_balancer` method, as a function of the outcome of the edit
request.  A successful response is returned from inside the try block.  A
raised exception whose text contains the pending update marker becomes the
immutable object error; otherwise control falls out of the except block to
the final raise, which wraps the original message in a LibcloudError (the
source is Python 2 code, where the except binding is still live there). -/
def _update_balancer (req : Except String Response) : Except PyErr Response :=
  match req with
  | Except.ok resp => Except.ok resp
  | Except.error err =>
      if strContains "Update already pending" err then
        Except.error (PyErr.immutable "Balancer is immutable")
      else
        Except.error (PyErr.libcloud ("Exception: " ++ err))

/-- The request parameters built by `balancer_attach_member`: the balancer
identifier plus the indexed encoding of the fetched member list with the new
member appended. -/
def balancer_attach_member_params (current : List Member) (balancerId : Option String)
    (member : Member) : List (String × PVal) :=
  ("id", PVal.opt balancerId) :: _members_to_params (current ++ [member])

/-- The result of `balancer_attach_member`, as a function of the member being
attached and the outcome of the edit request: the first member of the parsed
response realiplist whose IP equals the attached IP, selected by a filtering
comprehension subscripted at 0. -/
def balancer_attach_member_result (member : Member) (editResult : Except String Response) :
    Except PyErr Member :=
  match _update_balancer editResult with
  | Except.error e => Except.error e
  | Except.ok resp =>
      match listGetZero resp.object with
      | Except.error e => Except.error e
      | Except.ok first =>
          match dictGet first.realiplist "realiplist" with
          | Except.error e => Except.error e
          | Except.ok ripl =>
              match _to_members ripl with
              | Except.error e => Except.error e
              | Except.ok ms =>
                  match ms.filter (fun m => m.ip == member.ip) with
                  | [] => Except.error PyErr.indexError
                  | m :: _ => Except.ok m

/-- The request parameters built by `balancer_detach_member`: the balancer
identifier plus the indexed encoding of the fetched member list with the
members whose identifier equals the detached one filtered out. -/
def balancer_detach_member_params (current : List Member) (balancerId : Option String)
    (member : Member) : List (String × PVal) :=
  ("id", PVal.opt balancerId) ::
    _members_to_params (current.filter (fun n => !(n.id == member.id)))

/-- The result of `balancer_detach_member`, as a function of the outcome of
the edit request: whether the response status is 200. -/
def balancer_detach_member_result (editResult : Except String Response) :
    Except PyErr Bool :=
  match _update_balancer editResult with
  | Except.error e => Except.error e
  | Except.ok resp => Except.ok (resp.status == 200)

/-- Specification side description of the indexed member encoding: the pair
of parameters for the member at position i carries index i, for consecutive
indices starting at 0. -/
def specMemberParams (members : List Member) : List (String × PVal) :=
  (members.enum.map (fun p =>
      [("realiplist." ++ toString p.1 ++ ".ip", PVal.str p.2.ip),
       ("realiplist." ++ toString p.1 ++ ".port", PVal.nat p.2.port)])).flatten

/-- Specification side description of member removal: the list with every
member whose identifier equals the given one removed and all others kept in
order. -/
def specRemoveById (members : List Member) (mid : Option String) : List Member :=
  members.filter (fun n => decide (n.id ≠ mid))

/-- C1: every neutral algorithm enum in the range of the forward table
round-trips: looking it up in the derived reverse table and looking the
resulting vendor token up in the forward table yields the same enum again;
and the forward table has no duplicate values. -/
theorem c1_algorithm_map_roundtrip (a : Algorithm)
    (h : a ∈ _VALUE_TO_ALGORITHM_MAP.map Prod.snd) :
    (_VALUE_TO_ALGORITHM_MAP.map Prod.snd).Nodup ∧
    ∃ v, List.lookup a _ALGORITHM_TO_VALUE_MAP = some v ∧
         List.lookup v _VALUE_TO_ALGORITHM_MAP = some a := by
  refine ⟨by decide, ?_⟩
  cases a with
  | ROUND_ROBIN => exact ⟨"round balancer", by decide, by decide⟩
  | LEAST_CONNECTIONS => exact ⟨"least connection", by decide, by decide⟩

/-- Witness for C1 at the round robin algorithm. -/
theorem c1_algorithm_map_roundtrip_witness :
    Algorithm.ROUND_ROBIN ∈ _VALUE_TO_ALGORITHM_MAP.map Prod.snd ∧
    ((_VALUE_TO_ALGORITHM_MAP.map Prod.snd).Nodup ∧
     ∃ v, List.lookup Algorithm.ROUND_ROBIN _ALGORITHM_TO_VALUE_MAP = some v ∧
          List.lookup v _VALUE_TO_ALGORITHM_MAP = some Algorithm.ROUND_ROBIN) :=
  ⟨by decide, c1_algorithm_map_roundtrip Algorithm.ROUND_ROBIN (by decide)⟩

/-- When no polling round ever finds a matching balancer, the loop started at
a given waittime runs for exactly the number of interval steps left below the
timeout, counting one list call and one sleep per round, and ends in the
timeout exception. -/
theorem create_poll_never_finds (listResults : Nat → List Balancer) (nm : String)
    (hnever : ∀ k, findNamedWithId nm (listResults k) = none)
    (waittime calls sleeps : Nat) :
    create_poll listResults nm waittime calls sleeps =
      (Except.error (PyErr.timeoutExc "Failed to get id"),
       calls + (CREATE_TIMEOUT - waittime + CREATE_INTERVAL - 1) / CREATE_INTERVAL,
       sleeps + (CREATE_TIMEOUT - waittime + CREATE_INTERVAL - 1) / CREATE_INTERVAL) := by
  rw [create_poll.eq_def]
  by_cases h : waittime < CREATE_TIMEOUT
  · rw [dif_pos h]
    simp only [hnever]
    rw [create_poll_never_finds listResults nm hnever
          (waittime + CREATE_INTERVAL) (calls + 1) (sleeps + 1)]
    have harith : (CREATE_TIMEOUT - waittime + CREATE_INTERVAL - 1) / CREATE_INTERVAL
        = (CREATE_TIMEOUT - (waittime + CREATE_INTERVAL) + CREATE_INTERVAL - 1)
            / CREATE_INTERVAL + 1 := by
      simp only [CREATE_TIMEOUT, CREATE_INTERVAL] at *
      omega
    rw [harith]
    simp only [Prod.mk.injEq, true_and]
    exact ⟨by omega, by omega⟩
  · rw [dif_neg h]
    have hz : (CREATE_TIMEOUT - waittime + CREATE_INTERVAL - 1) / CREATE_INTERVAL = 0 := by
      simp only [CREATE_TIMEOUT, CREATE_INTERVAL] at *
      omega
    rw [hz]
    simp
termination_by CREATE_TIMEOUT - waittime
decreasing_by
  simp only [CREATE_TIMEOUT, CREATE_INTERVAL] at *
  omega

/-- C2: when the create response has a null identifier and no polling round
ever lists a balancer with the created name and a non-null identifier,
`create_balancer` terminates after exactly ceil(1200 / 30) = 40 calls to
list_balancers and raises the timeout exception. -/
theorem c2_create_balancer_timeout (env : PollEnv)
    (hid : env.createResp.id = none)
    (hnever : ∀ k, findNamedWithId env.createResp.name (env.listResults k) = none) :
    create_balancer env = (Except.error (PyErr.timeoutExc "Failed to get id"), 40, 40) ∧
    (CREATE_TIMEOUT + CREATE_INTERVAL - 1) / CREATE_INTERVAL = 40 := by
  refine ⟨?_, by decide⟩
  have h1 : env.createResp.id.isSome = false := by rw [hid]; rfl
  simp only [create_balancer, h1, Bool.false_eq_true, if_false]
  rw [create_poll_never_finds env.listResults env.createResp.name hnever 0 0 0]
  simp [CREATE_TIMEOUT, CREATE_INTERVAL]

/-- Witness for C2: a create response with no identifier and a listing that
stays empty forever. -/
theorem c2_create_balancer_timeout_witness :
    create_balancer ⟨⟨none, "lb0", State.RUNNING, "10.0.0.2", 80⟩, fun _ => []⟩ =
      (Except.error (PyErr.timeoutExc "Failed to get id"), 40, 40) ∧
    (CREATE_TIMEOUT + CREATE_INTERVAL - 1) / CREATE_INTERVAL = 40 :=
  c2_create_balancer_timeout
    ⟨⟨none, "lb0", State.RUNNING, "10.0.0.2", 80⟩, fun _ => []⟩ rfl (fun _ => rfl)

/-- C3: when the edit request inside `_update_balancer` raises an exception
whose text does not contain "Update already pending", the method raises a
LibcloudError whose value carries the original message. -/
theorem c3_update_balancer_wraps_other_errors (err : String)
    (h : strContains "Update already pending" err = false) :
    _update_balancer (Except.error err) =
      Except.error (PyErr.libcloud ("Exception: " ++ err)) := by
  simp [_update_balancer, h]

/-- Witness for C3 at a concrete unrelated error text. -/
theorem c3_update_balancer_witness :
    strContains "Update already pending" "404 not found" = false ∧
    _update_balancer (Except.error "404 not found") =
      Except.error (PyErr.libcloud ("Exception: " ++ "404 not found")) :=
  ⟨by decide, c3_update_balancer_wraps_other_errors "404 not found" (by decide)⟩

/-- C4: evaluation of the request construction of `ex_create_balancer_nowait`.
With an explicit algorithm the vendor token from the reverse table is sent as
`loadbalancer.type`; but with no algorithm the neutral DEFAULT_ALGORITHM enum
member itself is sent, not its vendor token "round balancer", although the
reverse table does hold that token for it. -/
theorem c4_default_algorithm_sent_unconverted :
    ex_create_balancer_nowait_params "10.0.0.1" "lb" 80 none [] =
      Except.ok [("name", PVal.str "lb"),
                 ("loadbalancer.type", PVal.alg DEFAULT_ALGORITHM),
                 ("virtualip.ip", PVal.str "10.0.0.1"),
                 ("virtualip.port", PVal.nat 80)] ∧
    PVal.alg DEFAULT_ALGORITHM ≠ PVal.str "round balancer" ∧
    _algorithm_to_value DEFAULT_ALGORITHM = Except.ok "round balancer" ∧
    ex_create_balancer_nowait_params "10.0.0.1" "lb" 80
        (some Algorithm.LEAST_CONNECTIONS) [] =
      Except.ok [("name", PVal.str "lb"),
                 ("loadbalancer.type", PVal.str "least connection"),
                 ("virtualip.ip", PVal.str "10.0.0.1"),
                 ("virtualip.port", PVal.nat 80)] :=
  ⟨rfl, by decide, rfl, rfl⟩

/-- C5: `destroy_balancer` raises the immutable object error exactly when the
delete request raised an exception containing "Update request for
LoadBalancer"; any other exception is re-raised unchanged; a response yields
true exactly when its status is 200. -/
theorem c5_destroy_balancer_error_translation (res : Except String Response) :
    ((∃ m, destroy_balancer res = Except.error (PyErr.immutable m)) ↔
       (∃ err, res = Except.error err ∧
          strContains "Update request for LoadBalancer" err = true)) ∧
    (∀ err, res = Except.error err →
       strContains "Update request for LoadBalancer" err = false →
       destroy_balancer res = Except.error (PyErr.vendor err)) ∧
    (∀ resp, res = Except.ok resp →
       (destroy_balancer res = Except.ok true ↔ resp.status = 200)) := by
  cases res with
  | ok r =>
      refine ⟨⟨?_, ?_⟩, ?_, ?_⟩
      · rintro ⟨m, hm⟩
        simp [destroy_balancer] at hm
      · rintro ⟨err, herr, _⟩
        exact Except.noConfusion herr
      · intro err herr _
        exact Except.noConfusion herr
      · intro resp hresp
        injection hresp with h2
        subst h2
        simp [destroy_balancer]
  | error err =>
      by_cases hmark : strContains "Update request for LoadBalancer" err = true
      · refine ⟨⟨?_, ?_⟩, ?_, ?_⟩
        · intro _
          exact ⟨err, rfl, hmark⟩
        · intro _
          exact ⟨"Cannot delete immutable object", by simp [destroy_balancer, hmark]⟩
        · intro err2 herr2 hfalse
          injection herr2 with h3
          subst h3
          rw [hmark] at hfalse
          cases hfalse
        · intro resp hresp
          exact Except.noConfusion hresp
      · have hmark2 : strContains "Update request for LoadBalancer" err = false := by
          simpa using hmark
        refine ⟨⟨?_, ?_⟩, ?_, ?_⟩
        · rintro ⟨m, hm⟩
          simp [destroy_balancer, hmark2] at hm
        · rintro ⟨err2, herr2, hc⟩
          injection herr2 with h3
          subst h3
          rw [hmark2] at hc
          cases hc
        · intro err2 herr2 _
          injection herr2 with h3
          subst h3
          simp [destroy_balancer, hmark2]
        · intro resp hresp
          exact Except.noConfusion hresp

/-- Witness for C5 at a concrete unrelated transport error. -/
theorem c5_destroy_balancer_witness :
    destroy_balancer (Except.error "connection reset") =
      Except.error (PyErr.vendor "connection reset") :=
  (c5_destroy_balancer_error_translation (Except.error "connection reset")).2.1
    "connection reset" rfl (by decide)

/-- C6: when the balancer returned by the create call already has an
identifier, `create_balancer` returns it at once, with zero list_balancers
calls and zero sleeps. -/
theorem c6_create_balancer_immediate (env : PollEnv)
    (h : env.createResp.id.isSome = true) :
    create_balancer env = (Except.ok env.createResp, 0, 0) := by
  simp [create_balancer, h]

/-- Witness for C6 at a create response that carries an identifier. -/
theorem c6_create_balancer_immediate_witness :
    create_balancer ⟨⟨some "123", "lb1", State.RUNNING, "10.1.1.1", 80⟩, fun _ => []⟩ =
      (Except.ok ⟨some "123", "lb1", State.RUNNING, "10.1.1.1", 80⟩, 0, 0) :=
  c6_create_balancer_immediate
    ⟨⟨some "123", "lb1", State.RUNNING, "10.1.1.1", 80⟩, fun _ => []⟩ rfl

/-- Subscripting the filtered list at 0 is selecting the first match. -/
theorem headOfFilter_eq_find (p : Member → Bool) (l : List Member) :
    (match l.filter p with
     | [] => (Except.error PyErr.indexError : Except PyErr Member)
     | m :: _ => Except.ok m) =
    (match l.find? p with
     | some m => Except.ok m
     | none => Except.error PyErr.indexError) := by
  induction l with
  | nil => rfl
  | cons x xs ih =>
      by_cases h : p x
      · simp [List.filter, List.find?, h]
      · simp [List.filter, List.find?, h, ih]

/-- C7: `balancer_attach_member` returns the first member of the parsed edit
response list whose IP equals the attached IP, and raises an index error
exactly when no member of that list has the attached IP. -/
theorem c7_attach_member_first_match (member : Member) (resp : Response)
    (first : LBElem) (rest : List LBElem) (ripl : List MemberElem) (ms : List Member)
    (hobj : resp.object = first :: rest)
    (hr : first.realiplist = some ripl)
    (hparse : _to_members ripl = Except.ok ms) :
    balancer_attach_member_result member (Except.ok resp) =
      (match ms.find? (fun m => m.ip == member.ip) with
       | some m => Except.ok m
       | none => Except.error PyErr.indexError) ∧
    (ms.find? (fun m => m.ip == member.ip) = none ↔
      ∀ m ∈ ms, m.ip ≠ member.ip) := by
  constructor
  · simp only [balancer_attach_member_result, _update_balancer, hobj, listGetZero, hr,
      dictGet, hparse]
    exact headOfFilter_eq_find _ _
  · simp [List.find?_eq_none]

/-- Witness for C7: an edit response holding one member with the attached
IP. -/
theorem c7_attach_member_witness :
    balancer_attach_member_result ⟨none, "192.0.2.1", 80⟩
        (Except.ok ⟨200, [⟨none, none, none, none,
            some [⟨some ⟨some "5", some "192.0.2.1"⟩, some 80⟩]⟩]⟩) =
      (match [(⟨some "5", "192.0.2.1", 80⟩ : Member)].find?
          (fun m => m.ip == Member.ip ⟨none, "192.0.2.1", 80⟩) with
       | some m => Except.ok m
       | none => Except.error PyErr.indexError) ∧
    ([(⟨some "5", "192.0.2.1", 80⟩ : Member)].find?
        (fun m => m.ip == Member.ip ⟨none, "192.0.2.1", 80⟩) = none ↔
      ∀ m ∈ [(⟨some "5", "192.0.2.1", 80⟩ : Member)],
        m.ip ≠ Member.ip ⟨none, "192.0.2.1", 80⟩) :=
  c7_attach_member_first_match ⟨none, "192.0.2.1", 80⟩
    ⟨200, [⟨none, none, none, none,
        some [⟨some ⟨some "5", some "192.0.2.1"⟩, some 80⟩]⟩]⟩
    ⟨none, none, none, none, some [⟨some ⟨some "5", some "192.0.2.1"⟩, some 80⟩]⟩
    [] [⟨some ⟨some "5", some "192.0.2.1"⟩, some 80⟩]
    [⟨some "5", "192.0.2.1", 80⟩] rfl rfl rfl

/-- The counter loop encoding agrees with the indexed description starting at
any index. -/
theorem membersToParamsFrom_eq_enumFrom (ms : List Member) (i : Nat) :
    membersToParamsFrom ms i =
      ((List.enumFrom i ms).map (fun p =>
        [("realiplist." ++ toString p.1 ++ ".ip", PVal.str p.2.ip),
         ("realiplist." ++ toString p.1 ++ ".port", PVal.nat p.2.port)])).flatten := by
  induction ms generalizing i with
  | nil => rfl
  | cons m ms ih => simp [membersToParamsFrom, List.enumFrom, ih]

/-- The member encoding of the source is the canonical indexed encoding with
consecutive indices from 0. -/
theorem members_to_params_eq_spec (ms : List Member) :
    _members_to_params ms = specMemberParams ms := by
  rw [_members_to_params, membersToParamsFrom_eq_enumFrom]
  rfl

/-- The boolean filter of the source agrees with removal by identifier. -/
theorem filter_ne_eq_specRemove (current : List Member) (mid : Option String) :
    current.filter (fun n => !(n.id == mid)) = specRemoveById current mid := by
  simp only [specRemoveById]
  congr 1
  funext n
  by_cases h : n.id = mid <;> simp [h]

/-- C8: `balancer_detach_member` resubmits exactly the fetched member list
with every member whose identifier equals the detached identifier removed,
in order, under the consecutive indexed encoding, and returns true exactly
when the edit response status is 200. -/
theorem c8_detach_member_list_and_status (current : List Member)
    (balancerId : Option String) (member : Member) (resp : Response) :
    balancer_detach_member_params current balancerId member =
      ("id", PVal.opt balancerId) ::
        specMemberParams (specRemoveById current member.id) ∧
    (specRemoveById current member.id).Sublist current ∧
    (∀ m, m ∈ specRemoveById current member.id ↔ m ∈ current ∧ m.id ≠ member.id) ∧
    (balancer_detach_member_result (Except.ok resp) = Except.ok true ↔
      resp.status = 200) := by
  refine ⟨?_, ?_, ?_, ?_⟩
  · rw [balancer_detach_member_params, filter_ne_eq_specRemove, members_to_params_eq_spec]
  · exact List.filter_sublist _
  · intro m
    simp [specRemoveById]
  · simp [balancer_detach_member_result, _update_balancer]

/-- Witness for C8: detaching the only member of a one member list. -/
theorem c8_detach_member_witness :
    balancer_detach_member_params [⟨some "1", "10.0.0.5", 80⟩] (some "7")
        ⟨some "1", "10.0.0.5", 80⟩ =
      ("id", PVal.opt (some "7")) ::
        specMemberParams (specRemoveById [⟨some "1", "10.0.0.5", 80⟩] (some "1")) ∧
    (specRemoveById [⟨some "1", "10.0.0.5", 80⟩] (some "1")).Sublist
        [⟨some "1", "10.0.0.5", 80⟩] ∧
    (∀ m, m ∈ specRemoveById [⟨some "1", "10.0.0.5", 80⟩] (some "1") ↔
        m ∈ [(⟨some "1", "10.0.0.5", 80⟩ : Member)] ∧ m.id ≠ some "1") ∧
    (balancer_detach_member_result (Except.ok ⟨200, []⟩) = Except.ok true ↔
      Response.status ⟨200, []⟩ = 200) :=
  c8_detach_member_list_and_status [⟨some "1", "10.0.0.5", 80⟩] (some "7")
    ⟨some "1", "10.0.0.5", 80⟩ ⟨200, []⟩

/-- C9: `get_balancer` raises the key error for `balancer_id` when called
with neither lookup key; a supplied name selects lookup by name regardless
of any identifier; otherwise the identifier is used; and on a successful
response the single parsed balancer is returned. -/
theorem c9_get_balancer_lookup (nm bid : Option String) (resp : Response) (b : Balancer) :
    get_balancer none none resp = Except.error (PyErr.keyError "balancer_id") ∧
    (∀ n, get_balancer_params (some n) bid = Except.ok [("name", PVal.str n)]) ∧
    (∀ i, get_balancer_params none (some i) = Except.ok [("id", PVal.str i)]) ∧
    ((nm.isSome ∨ bid.isSome) → _to_balancers resp.object = Except.ok [b] →
       get_balancer nm bid resp = Except.ok b) := by
  refine ⟨rfl, fun n => rfl, fun i => rfl, ?_⟩
  intro hsome hparse
  cases nm with
  | some n => simp [get_balancer, get_balancer_params, hparse, listGetZero]
  | none =>
      cases bid with
      | some i => simp [get_balancer, get_balancer_params, hparse, listGetZero]
      | none => rcases hsome with h | h <;> simp at h

/-- Witness for C9: lookup by identifier with a response holding one
balancer. -/
theorem c9_get_balancer_witness :
    get_balancer none (some "42")
        ⟨200, [⟨some "42", some "lb", some ⟨some "On"⟩,
            some ⟨some ⟨none, some "10.2.2.2"⟩, some 8080⟩, none⟩]⟩ =
      Except.ok ⟨some "42", "lb", State.RUNNING, "10.2.2.2", 8080⟩ :=
  (c9_get_balancer_lookup none (some "42")
      ⟨200, [⟨some "42", some "lb", some ⟨some "On"⟩,
          some ⟨some ⟨none, some "10.2.2.2"⟩, some 8080⟩, none⟩]⟩
      ⟨some "42", "lb", State.RUNNING, "10.2.2.2", 8080⟩).2.2.2 (Or.inr rfl) rfl

/-- The state map lookup with UNKNOWN default maps "On" to RUNNING and every
other string to UNKNOWN. -/
theorem lb_state_lookup (sn : String) :
    (List.lookup sn LB_STATE_MAP).getD State.UNKNOWN =
      if sn = "On" then State.RUNNING else State.UNKNOWN := by
  by_cases h1 : sn = "On"
  · subst h1
    rfl
  · have e1 : (sn == "On") = false := by
      rw [beq_eq_false_iff_ne]
      exact h1
    by_cases h2 : sn = "Unknown"
    · subst h2
      rfl
    · have e2 : (sn == "Unknown") = false := by
        rw [beq_eq_false_iff_ne]
        exact h2
      simp [LB_STATE_MAP, List.lookup, e1, e2, h1]

/-- C10: parsing a vendor element is total in the identifier and strict in
the other fields.  With name, state name, virtual IP and port present, the
element parses to a balancer whose identifier is whatever the element holds,
null included, with state RUNNING exactly for the string "On" and UNKNOWN
otherwise; a missing name, state or virtualip key makes the parser, and so
the list parser behind list_balancers and get_balancer, raise a key
error. -/
theorem c10_to_balancer_partiality (el : LBElem) (nm2 : String) (sd : StateDict)
    (sn : String) (vip : VipDict) (ipd : IpDict) (ipstr : String) (pt : Nat)
    (hname : el.name = some nm2) (hstate : el.state = some sd) (hsn : sd.name = some sn)
    (hvip : el.virtualip = some vip) (hip : vip.ip = some ipd)
    (hipstr : ipd.ip = some ipstr) (hport : vip.port = some pt) :
    _to_balancer el = Except.ok
      ⟨el.id, nm2, if sn = "On" then State.RUNNING else State.UNKNOWN, ipstr, pt⟩ ∧
    (∀ el2 : LBElem, el2.name = none ∨ el2.state = none ∨ el2.virtualip = none →
       ∃ k, _to_balancer el2 = Except.error (PyErr.keyError k)) ∧
    (∀ el2 : LBElem, (∃ e, _to_balancer el2 = Except.error e) →
       ∀ pre post, ∃ e2, _to_balancers (pre ++ el2 :: post) = Except.error e2) := by
  refine ⟨?_, ?_, ?_⟩
  · simp only [_to_balancer, hname, hstate, hsn, hvip, hip, hipstr, hport, dictGet]
    rw [lb_state_lookup]
  · intro el2 hmiss
    rcases hmiss with hn | hs | hv
    · exact ⟨"name", by simp [_to_balancer, dictGet, hn]⟩
    · cases hne : el2.name with
      | none => exact ⟨"name", by simp [_to_balancer, dictGet, hne]⟩
      | some x => exact ⟨"state", by simp [_to_balancer, dictGet, hne, hs]⟩
    · cases hne : el2.name with
      | none => exact ⟨"name", by simp [_to_balancer, dictGet, hne]⟩
      | some x =>
          cases hse : el2.state with
          | none => exact ⟨"state", by simp [_to_balancer, dictGet, hne, hse]⟩
          | some sd2 =>
              cases hsn2 : sd2.name with
              | none => exact ⟨"name", by simp [_to_balancer, dictGet, hne, hse, hsn2]⟩
              | some s2 =>
                  exact ⟨"virtualip",
                    by simp [_to_balancer, dictGet, hne, hse, hsn2, hv]⟩
  · rintro el2 ⟨e, he⟩ pre post
    induction pre with
    | nil => exact ⟨e, by simp [_to_balancers, exceptMap, he]⟩
    | cons x xs ih =>
        rcases ih with ⟨e2, he2⟩
        cases hx : _to_balancer x with
        | error ex => exact ⟨ex, by simp [_to_balancers, exceptMap, hx]⟩
        | ok y =>
            refine ⟨e2, ?_⟩
            simp only [_to_balancers, exceptMap, List.cons_append, hx]
            have hrec : exceptMap _to_balancer (xs.append (el2 :: post)) = Except.error e2 :=
              he2
            rw [hrec]

/-- Witness for C10: an element with no identifier, an unrecognized state
string, and all other fields present. -/
theorem c10_to_balancer_witness :
    _to_balancer ⟨none, some "lb9", some ⟨some "Off"⟩,
        some ⟨some ⟨none, some "10.9.9.9"⟩, some 443⟩, none⟩ =
      Except.ok ⟨none, "lb9",
        if "Off" = "On" then State.RUNNING else State.UNKNOWN, "10.9.9.9", 443⟩ ∧
    (∀ el2 : LBElem, el2.name = none ∨ el2.state = none ∨ el2.virtualip = none →
       ∃ k, _to_balancer el2 = Except.error (PyErr.keyError k)) ∧
    (∀ el2 : LBElem, (∃ e, _to_balancer el2 = Except.error e) →
       ∀ pre post, ∃ e2, _to_balancers (pre ++ el2 :: post) = Except.error e2) :=
  c10_to_balancer_partiality
    ⟨none, some "lb9", some ⟨some "Off"⟩,
        some ⟨some ⟨none, some "10.9.9.9"⟩, some 443⟩, none⟩
    "lb9" ⟨some "Off"⟩ "Off" ⟨some ⟨none, some "10.9.9.9"⟩, some 443⟩
    ⟨none, some "10.9.9.9"⟩ "10.9.9.9" 443 rfl rfl rfl rfl rfl rfl rfl

end GoGridLB
